import Mathlib

/-!
The GLFW binding layer `native.c`

A shallow embedding of the foreign-function layer in `native.c`.  The C file is a
thin wrapper: every entry point calls one GLFW function and packs the answer in a
host-runtime value.  Three things surround it and are made explicit here:

* the **native layer** (GLFW), modelled as a mock: a log of the calls it received
  (`State.calls`) and an oracle `Native` giving its answers;
* the **host runtime** (`lean.h`): boxed scalars, heap objects with a reference
  counter and a tag, external objects, the registry of external classes;
* the **wrapper** itself, one definition per C function, with the same name.

C assertions are taken to be compiled in: a failed `assert` is the fatal path
`Fault.assertion`.  Reading through something that is not a live heap object is
undefined behaviour in C and is reported as `Fault.undefined`.
-/

namespace GLFW

/-! ## The mock native layer -/

/-- A raw native pointer (`GLFWwindow *`, `void *`); `0` is the null pointer. -/
abbrev Ptr := Nat

/-- The null pointer. -/
def NULL : Ptr := 0

/-- One call received by the native windowing library, with its arguments. -/
inductive NativeCall where
  | glfwInit
  | glfwTerminate
  | glfwCreateWindow (width height : Int) (title : String)
  | glfwWindowShouldClose (win : Ptr)
  | glfwPollEvents
  | glfwDestroyWindow (win : Ptr)
  deriving DecidableEq, Repr

/-- The answers of the native library.  Each answer may depend on every call the
library has received so far, so any behaviour of the library is some `Native`. -/
structure Native where
  /-- whether library setup succeeds -/
  init : List NativeCall → Bool
  /-- the window pointer handed out (null when creation fails) -/
  createWindow : List NativeCall → Int → Int → String → Ptr
  /-- the close flag of a window, a C `int` -/
  windowShouldClose : List NativeCall → Ptr → Int

/-- The value of `GLFW_TRUE` in `glfw3.h`. -/
def GLFW_TRUE : Int := 1

/-- The value of `GLFW_FALSE` in `glfw3.h`. -/
def GLFW_FALSE : Int := 0

/-! ## The host runtime (`lean.h`) -/

/-- The object tag of external objects (`#define LeanExternal 254`). -/
def LeanExternal : Nat := 254

/-- A finalizer function pointer: the one defined in `native.c`, or one that
belongs to some other module. -/
inductive FinalizeProc where
  | glfw_window_finalizer
  | foreign (id : Nat)
  deriving DecidableEq, Repr

/-- A tracer (`foreach`) function pointer: the one defined in `native.c`, or one
that belongs to some other module. -/
inductive ForeachProc where
  | noop_foreach
  | foreign (id : Nat)
  deriving DecidableEq, Repr

/-- The descriptor of an external class (`lean_external_class`). -/
structure lean_external_class where
  m_finalize : FinalizeProc
  m_foreach : ForeachProc
  deriving DecidableEq, Repr

/-- A host value (`lean_object *`): a boxed scalar or the address of a heap object. -/
inductive ObjRef where
  | scalar (n : Nat)
  | ptr (addr : Nat)
  deriving DecidableEq, Repr

/-- A heap object seen through `lean_external_object`: the header fields `m_rc`
and `m_tag`, then `m_class` (an index in the class registry) and `m_data`.  The
last two mean something only when `m_tag = LeanExternal`; for any other kind of
object they stand for whatever bytes follow the header.  `m_rc = 0` marks a
persistent object; the single-threaded counter is positive. -/
structure lean_object where
  m_rc : Nat
  m_tag : Nat
  m_class : Nat
  m_data : Ptr
  deriving DecidableEq, Repr

/-- The result of an effectful host operation (`lean_io_result_mk_ok`,
`lean_io_result_mk_error`). -/
inductive io_result where
  | ok (a : ObjRef)
  | error (e : ObjRef)
  deriving DecidableEq, Repr

/-- How a call can fail to return. -/
inductive Fault where
  /-- a C `assert` failed: the fatal precondition path -/
  | assertion
  /-- undefined behaviour: a read through something that is not a live heap object -/
  | undefined
  deriving DecidableEq, Repr

/-- Everything the wrapper can read or change. -/
structure State where
  /-- the calls received by the native library, oldest first -/
  calls : List NativeCall
  /-- what has been written to standard output -/
  stdout : String
  /-- the registry of external classes of the host runtime (`g_ext_classes`);
  a class pointer is an index in it -/
  g_ext_classes : List lean_external_class
  /-- the function-local `static` of `get_glfw_window_class`; `none` is `NULL` -/
  g_glfw_window_class : Option Nat
  /-- the host heap: cell `a` holds the object at address `a`, `none` once freed -/
  heap : List (Option lean_object)

/-- The live object at address `a`, if there is one. -/
def State.deref (s : State) (a : Nat) : Option lean_object :=
  (s.heap[a]?).join

/-- Conversion of a C `int` to `size_t` (64 bits). -/
def size_t_of_int (i : Int) : Nat := (i % 18446744073709551616).toNat

/-- Conversion of a C `bool` to `size_t`. -/
def size_t_of_bool (b : Bool) : Nat := if b then 1 else 0

/-- Conversion of a `uint32_t` to a C `int` (32 bits, two's complement). -/
def int_of_uint32 (x : Nat) : Int :=
  if x % 4294967296 < 2147483648 then (x % 4294967296 : Nat)
  else ((x % 4294967296 : Nat) : Int) - 4294967296

/-- Boxing `lean_box(n) = (n << 1) | 1`: the low 63 bits of `n` survive. -/
def lean_box (n : Nat) : ObjRef := .scalar (n % 9223372036854775808)

/-- Wrapping `lean_io_result_mk_ok`. -/
def lean_io_result_mk_ok (a : ObjRef) : io_result := .ok a

/-- Tag test `lean_is_external(o)`: reads the tag of the object `o` points to. -/
def lean_is_external (s : State) (o : ObjRef) : Except Fault Bool :=
  match o with
  | .scalar _ => .error .undefined
  | .ptr a =>
    match s.deref a with
    | some obj => .ok (obj.m_tag == LeanExternal)
    | none => .error .undefined

/-- Accessor `lean_get_external_data(o)`: `lean_to_external` asserts the tag, then
the `m_data` field is read. -/
def lean_get_external_data (s : State) (o : ObjRef) : Except Fault Ptr :=
  match lean_is_external s o with
  | .error f => .error f
  | .ok false => .error .assertion
  | .ok true =>
    match o with
    | .scalar _ => .error .undefined
    | .ptr a =>
      match s.deref a with
      | some obj => .ok obj.m_data
      | none => .error .undefined

/-- Allocation `lean_alloc_external(cls, data)`: a fresh object with reference
count 1 and tag `LeanExternal`. -/
def lean_alloc_external (cls : Nat) (data : Ptr) (s : State) : ObjRef × State :=
  (.ptr s.heap.length,
   { s with heap := s.heap ++ [some ⟨1, LeanExternal, cls, data⟩] })

/-- Registration `lean_register_external_class(finalize, foreach)`: a new
descriptor is pushed on the registry and its pointer returned (never null). -/
def lean_register_external_class (fin : FinalizeProc) (fe : ForeachProc) (s : State) :
    Nat × State :=
  (s.g_ext_classes.length, { s with g_ext_classes := s.g_ext_classes ++ [⟨fin, fe⟩] })

/-- The characters of a host string seen as a C string: up to the first NUL. -/
def lean_string_cstr (title : String) : String :=
  String.mk (title.data.takeWhile (fun c => c != Char.ofNat 0))

/-! ## The native calls, against the mock -/

/-- Native `int glfwInit(void)`: answers `GLFW_TRUE` when setup succeeded and
`GLFW_FALSE` when it failed. -/
def glfwInit (N : Native) (s : State) : Int × State :=
  (if N.init s.calls then GLFW_TRUE else GLFW_FALSE,
   { s with calls := s.calls ++ [.glfwInit] })

/-- Native `void glfwTerminate(void)`. -/
def glfwTerminate (s : State) : State :=
  { s with calls := s.calls ++ [.glfwTerminate] }

/-- Native `glfwCreateWindow(int width, int height, const char *title, monitor, share)`;
the wrapper always passes `NULL` for the last two, which are left out. -/
def glfwCreateWindow (N : Native) (width height : Int) (title : String) (s : State) :
    Ptr × State :=
  (N.createWindow s.calls width height title,
   { s with calls := s.calls ++ [.glfwCreateWindow width height title] })

/-- Native `int glfwWindowShouldClose(GLFWwindow *window)`. -/
def glfwWindowShouldClose (N : Native) (win : Ptr) (s : State) : Int × State :=
  (N.windowShouldClose s.calls win,
   { s with calls := s.calls ++ [.glfwWindowShouldClose win] })

/-- Native `void glfwPollEvents(void)`. -/
def glfwPollEvents (s : State) : State :=
  { s with calls := s.calls ++ [.glfwPollEvents] }

/-- Native `void glfwDestroyWindow(GLFWwindow *window)`. -/
def glfwDestroyWindow (win : Ptr) (s : State) : State :=
  { s with calls := s.calls ++ [.glfwDestroyWindow win] }

/-- Output of `printf("%d", x)` for a `uint32_t` argument: the 32 bits are read
as an `int`. -/
def printf_d (x : Nat) : String := toString (int_of_uint32 x)

/-! ## The wrapper: `native.c` -/

/-- The tracer of the class: `// NOTHING`. -/
def noop_foreach (_data : Ptr) (_arg : ObjRef) (s : State) : State := s

/-- The finalizer of the class: `glfwDestroyWindow((GLFWwindow *) ptr)`. -/
def glfw_window_finalizer (ptr : Ptr) (s : State) : State :=
  glfwDestroyWindow ptr s

/-- The lazily registered class: registered when the static is still `NULL`. -/
def get_glfw_window_class (s : State) : Nat × State :=
  match s.g_glfw_window_class with
  | none =>
    let (c, s1) := lean_register_external_class .glfw_window_finalizer .noop_foreach s
    (c, { s1 with g_glfw_window_class := some c })
  | some c => (c, s)

/-- The entry point of `Initialize`: the `int` answered by `glfwInit` is boxed. -/
def lean_glfwInit (N : Native) (s : State) : io_result × State :=
  let (result, s1) := glfwInit N s
  (lean_io_result_mk_ok (lean_box (size_t_of_int result)), s1)

/-- The entry point of `Terminate`. -/
def lean_glfwTerminate (s : State) : io_result × State :=
  let s1 := glfwTerminate s
  (lean_io_result_mk_ok (lean_box 0), s1)

/-- The diagnostic line written by `lean_glfwCreateWindow`. -/
def createWindowLine (width height : Nat) : String :=
  "lean_glfwCreateWindow " ++ printf_d width ++ "x" ++ printf_d height ++ "\n"

/-- The entry point of `CreateHandle`.  `width` and `height` are `uint32_t` values;
`title` is the content of the (borrowed) host string. -/
def lean_glfwCreateWindow (N : Native) (width height : Nat) (title : String) (s : State) :
    io_result × State :=
  let s1 := { s with stdout := s.stdout ++ createWindowLine width height }
  let title_cstr := lean_string_cstr title
  let (win, s2) := glfwCreateWindow N (int_of_uint32 width) (int_of_uint32 height) title_cstr s1
  let (cls, s3) := get_glfw_window_class s2
  let (o, s4) := lean_alloc_external cls win s3
  (lean_io_result_mk_ok o, s4)

/-- The entry point of `ShouldClose`.  The body reads `winp` and changes no
reference count (there is no `lean_inc` or `lean_dec`), so the heap is left as it
was.  `bool status = ...` turns the native `int` into 0 or 1. -/
def lean_glfwWindowShouldClose (N : Native) (winp : ObjRef) (s : State) :
    Except Fault (io_result × State) :=
  match lean_is_external s winp with
  | .error f => .error f
  | .ok false => .error .assertion
  | .ok true =>
    match lean_get_external_data s winp with
    | .error f => .error f
    | .ok win =>
      let (r, s1) := glfwWindowShouldClose N win s
      let status : Bool := r != 0
      .ok (lean_io_result_mk_ok (lean_box (size_t_of_bool status)), s1)

/-- The entry point of `PollEvents`. -/
def lean_glfwPollEvents (s : State) : io_result × State :=
  let s1 := glfwPollEvents s
  (lean_io_result_mk_ok (lean_box 0), s1)

/-! ## Reference counting by the host (`lean.h`, `object.cpp`) -/

/-- Host primitive `lean_inc(o)`: nothing for a scalar or a persistent object, else the
counter goes up by one. -/
def lean_inc (o : ObjRef) (s : State) : Except Fault State :=
  match o with
  | .scalar _ => .ok s
  | .ptr a =>
    match s.deref a with
    | none => .error .undefined
    | some obj =>
      if obj.m_rc > 0 then
        .ok { s with heap := s.heap.set a (some { obj with m_rc := obj.m_rc + 1 }) }
      else .ok s

/-- A call through a finalizer function pointer.  A finalizer of another module
does not touch anything modelled here. -/
def call_finalize (f : FinalizeProc) (data : Ptr) (s : State) : State :=
  match f with
  | .glfw_window_finalizer => glfw_window_finalizer data s
  | .foreign _ => s

/-- Deletion `lean_del_core`: an external object is finalized through its class
(`m_class->m_finalize(m_data)`), then the cell is freed. -/
def lean_del_core (a : Nat) (obj : lean_object) (s : State) : Except Fault State :=
  if obj.m_tag = LeanExternal then
    match s.g_ext_classes[obj.m_class]? with
    | none => .error .undefined
    | some cls =>
      let s1 := call_finalize cls.m_finalize obj.m_data s
      .ok { s1 with heap := s1.heap.set a none }
  else .ok { s with heap := s.heap.set a none }

/-- Host primitive `lean_dec(o)`: nothing for a scalar or a persistent object; the
counter goes down by one while it is above 1, and the object is deleted when the
last reference goes. -/
def lean_dec (o : ObjRef) (s : State) : Except Fault State :=
  match o with
  | .scalar _ => .ok s
  | .ptr a =>
    match s.deref a with
    | none => .error .undefined
    | some obj =>
      if obj.m_rc > 1 then
        .ok { s with heap := s.heap.set a (some { obj with m_rc := obj.m_rc - 1 }) }
      else if obj.m_rc ≠ 0 then lean_del_core a obj s
      else .ok s

/-! ## Sequences of operations -/

/-- What the host can do: call an entry point of the wrapper, or take or drop a
reference to a value. -/
inductive Op where
  | Initialize
  | Terminate
  | CreateHandle (width height : Nat) (title : String)
  | ShouldClose (winp : ObjRef)
  | PollEvents
  | inc (o : ObjRef)
  | dec (o : ObjRef)
  deriving DecidableEq, Repr

/-- One operation. -/
def step (N : Native) (op : Op) (s : State) : Except Fault State :=
  match op with
  | .Initialize => .ok (lean_glfwInit N s).2
  | .Terminate => .ok (lean_glfwTerminate s).2
  | .CreateHandle w h t => .ok (lean_glfwCreateWindow N w h t s).2
  | .ShouldClose winp =>
    match lean_glfwWindowShouldClose N winp s with
    | .ok (_, s1) => .ok s1
    | .error f => .error f
  | .PollEvents => .ok (lean_glfwPollEvents s).2
  | .inc o => lean_inc o s
  | .dec o => lean_dec o s

/-- A sequence of operations, stopped by the first fault. -/
def run (N : Native) : List Op → State → Except Fault State
  | [], s => .ok s
  | op :: ops, s =>
    match step N op s with
    | .ok s1 => run N ops s1
    | .error f => .error f

/-- The state of a fresh process: nothing called, nothing registered, nothing
allocated, the static still `NULL`. -/
def State.initial : State :=
  { calls := [], stdout := "", g_ext_classes := [], g_glfw_window_class := none, heap := [] }

/-! ## Vocabulary of the specification -/

/-- The host representation of a boolean inside a result: `false` is the boxed 0,
`true` the boxed 1. -/
def hostBool (b : Bool) : ObjRef := .scalar (if b then 1 else 0)

/-- The class descriptor that `native.c` registers. -/
def glfwWindowClass : lean_external_class :=
  { m_finalize := .glfw_window_finalizer, m_foreach := .noop_foreach }

/-- The raw pointer of `o` when `o` is a wrapped Handle of the GLFW-window class:
a live external object whose class is the one held in the static. -/
def handleData (s : State) (o : ObjRef) : Option Ptr :=
  match o with
  | .scalar _ => none
  | .ptr a =>
    match s.deref a with
    | none => none
    | some obj =>
      if obj.m_tag = LeanExternal ∧ s.g_glfw_window_class = some obj.m_class then
        some obj.m_data
      else none

/-- The pointer the native library answers to a creation request made in `s`. -/
def nativeWindow (N : Native) (width height : Nat) (title : String) (s : State) : Ptr :=
  N.createWindow s.calls (int_of_uint32 width) (int_of_uint32 height) (lean_string_cstr title)

/-- The class pointer that `get_glfw_window_class` answers in `s`. -/
def classPtr (s : State) : Nat :=
  s.g_glfw_window_class.getD s.g_ext_classes.length

/-- The state in which `lean_glfwCreateWindow` leaves `s`. -/
def afterCreate (N : Native) (width height : Nat) (title : String) (s : State) : State :=
  { calls := s.calls ++
      [.glfwCreateWindow (int_of_uint32 width) (int_of_uint32 height) (lean_string_cstr title)]
    stdout := s.stdout ++ createWindowLine width height
    g_ext_classes :=
      if s.g_glfw_window_class.isSome then s.g_ext_classes
      else s.g_ext_classes ++ [glfwWindowClass]
    g_glfw_window_class := some (classPtr s)
    heap := s.heap ++ [some ⟨1, LeanExternal, classPtr s, nativeWindow N width height title s⟩] }

/-! ## Sample inputs and invariants -/

/-- A native layer whose window creation always fails. -/
def failingNative : Native :=
  { init := fun _ => true, createWindow := fun _ _ _ _ => NULL,
    windowShouldClose := fun _ _ => 0 }

/-- Cell `a` belongs to the heap and, as long as it is live, holds an external
object whose data pointer is `p`. -/
def Wraps (a : Nat) (p : Ptr) (s : State) : Prop :=
  a < s.heap.length ∧
    ∀ obj, s.deref a = some obj → obj.m_tag = LeanExternal ∧ obj.m_data = p

/-- A mock native layer: setup succeeds, every created window is at address 4096,
no window asks to be closed. -/
def mockNative : Native :=
  { init := fun _ => true, createWindow := fun _ _ _ _ => 4096,
    windowShouldClose := fun _ _ => 0 }

/-- The state reached from `s` by `ops`, or `s` itself when `ops` faults. -/
def runOr (N : Native) (ops : List Op) (s : State) : State :=
  match run N ops s with
  | .ok s1 => s1
  | .error _ => s

/-- Whether an operation is a `CreateHandle`. -/
def isCreate : Op → Bool
  | .CreateHandle _ _ _ => true
  | _ => false

/-- The registry is `L`, followed by the GLFW-window class exactly when `b`; the
static holds the pointer of that class exactly when `b`. -/
def Registered (L : List lean_external_class) (b : Bool) (s : State) : Prop :=
  s.g_ext_classes = L ++ (if b then [glfwWindowClass] else []) ∧
    s.g_glfw_window_class = if b then some L.length else none

/-- Queries on the Handle at address 0, with an event poll between them. -/
def sampleQueries : List Op :=
  [.ShouldClose (.ptr 0), .PollEvents, .ShouldClose (.ptr 0)]

/-- Operations before the second `CreateHandle` of the sample sequence. -/
def sampleBefore : List Op :=
  [.Initialize, .CreateHandle 800 600 "Test", .PollEvents]

/-- Operations after the second `CreateHandle` of the sample sequence. -/
def sampleAfter : List Op :=
  [.ShouldClose (.ptr 1), .ShouldClose (.ptr 0), .Terminate]

/-- A state in which another module has registered a class of its own (pointer 0)
and allocated an external object of that class at address 0, wrapping the foreign
pointer 7; address 1 holds an object with the tag of a string (249). -/
def foreignBase : State :=
  { calls := [], stdout := "",
    g_ext_classes := [⟨.foreign 1, .foreign 1⟩],
    g_glfw_window_class := none,
    heap := [some ⟨1, LeanExternal, 0, 7⟩, some ⟨1, 249, 0, 0⟩] }

/-- The state `foreignBase` after one `CreateHandle`: the GLFW-window class is now
registered (pointer 1) and a Handle of that class is at address 2. -/
def foreignState : State :=
  (lean_glfwCreateWindow mockNative 800 600 "Test" foreignBase).2

theorem lean_glfwCreateWindow_eq (N : Native) (w h : Nat) (t : String) (s : State) :
    lean_glfwCreateWindow N w h t s = (.ok (.ptr s.heap.length), afterCreate N w h t s) := by
  cases hc : s.g_glfw_window_class <;>
    simp [lean_glfwCreateWindow, glfwCreateWindow, get_glfw_window_class,
      lean_register_external_class, lean_alloc_external, lean_io_result_mk_ok, afterCreate,
      classPtr, nativeWindow, glfwWindowClass, hc]

theorem deref_append_length (s : State) (cells : List (Option lean_object))
    (obj : lean_object) (h : s.heap = cells ++ [some obj]) :
    s.deref cells.length = some obj := by
  simp [State.deref, h]

theorem lean_glfwWindowShouldClose_external (N : Native) (s : State) (a : Nat)
    (obj : lean_object) (hd : s.deref a = some obj) (ht : obj.m_tag = LeanExternal) :
    lean_glfwWindowShouldClose N (.ptr a) s =
      .ok (.ok (hostBool (N.windowShouldClose s.calls obj.m_data != 0)),
           { s with calls := s.calls ++ [.glfwWindowShouldClose obj.m_data] }) := by
  simp [lean_glfwWindowShouldClose, lean_is_external, lean_get_external_data, hd, ht,
    glfwWindowShouldClose, lean_io_result_mk_ok, lean_box, size_t_of_bool, hostBool]
  split <;> simp

/-! ## Initialize and Terminate -/

/-- C5: whatever the native init answers, `lean_glfwInit` returns a successful result
whose value is the host boolean of that answer (boxed 0 for failure, boxed 1 for
success); its only effect is the one native `glfwInit` call. -/
theorem lean_glfwInit_reports_boolean (N : Native) (s : State) :
    lean_glfwInit N s =
      (io_result.ok (hostBool (N.init s.calls)), { s with calls := s.calls ++ [.glfwInit] }) := by
  cases hi : N.init s.calls <;>
    simp [lean_glfwInit, glfwInit, lean_io_result_mk_ok, lean_box, size_t_of_int, hostBool,
      GLFW_TRUE, GLFW_FALSE, hi]

/-- C7: in every state, also the one left by a failed `lean_glfwInit`,
`lean_glfwTerminate` returns the successful result holding the boxed 0, adds exactly
one `glfwTerminate` to the native calls and leaves the heap (every Handle), the class
registry and the static as they were. -/
theorem lean_glfwTerminate_always_succeeds (N : Native) (s : State) :
    lean_glfwTerminate s =
      (io_result.ok (.scalar 0), { s with calls := s.calls ++ [.glfwTerminate] }) ∧
    (lean_glfwTerminate (lean_glfwInit N s).2).1 = io_result.ok (.scalar 0) ∧
    (lean_glfwTerminate (lean_glfwInit N s).2).2.calls =
      s.calls ++ [.glfwInit] ++ [.glfwTerminate] ∧
    (lean_glfwTerminate (lean_glfwInit N s).2).2.heap = s.heap := by
  simp [lean_glfwTerminate, glfwTerminate, lean_io_result_mk_ok, lean_box, lean_glfwInit,
    glfwInit]

/-! ## CreateHandle -/

/-- C8: when the native `glfwCreateWindow` answers the null pointer,
`lean_glfwCreateWindow` still returns a successful result; the value is a fresh
external object of the GLFW-window class, reference count 1, whose data pointer is
null. -/
theorem lean_glfwCreateWindow_wraps_null (N : Native) (w h : Nat) (t : String) (s : State)
    (hnull : nativeWindow N w h t s = NULL) :
    (lean_glfwCreateWindow N w h t s).1 = io_result.ok (.ptr s.heap.length) ∧
    (lean_glfwCreateWindow N w h t s).2.deref s.heap.length =
      some ⟨1, LeanExternal, classPtr s, NULL⟩ ∧
    (lean_glfwCreateWindow N w h t s).2.g_glfw_window_class = some (classPtr s) ∧
    handleData (lean_glfwCreateWindow N w h t s).2 (.ptr s.heap.length) = some NULL := by
  rw [lean_glfwCreateWindow_eq]
  have hd : (afterCreate N w h t s).deref s.heap.length =
      some ⟨1, LeanExternal, classPtr s, NULL⟩ := by
    rw [← hnull]
    exact deref_append_length _ _ _ rfl
  refine ⟨rfl, hd, rfl, ?_⟩
  simp only [handleData, hd]
  simp [afterCreate]

/-- Witness for C8: the native layer whose window creation always fails. -/
theorem lean_glfwCreateWindow_wraps_null_witness :
    nativeWindow failingNative 800 600 "Test" State.initial = NULL ∧
    ((lean_glfwCreateWindow failingNative 800 600 "Test" State.initial).1 =
        io_result.ok (.ptr State.initial.heap.length) ∧
      (lean_glfwCreateWindow failingNative 800 600 "Test" State.initial).2.deref
          State.initial.heap.length =
        some ⟨1, LeanExternal, classPtr State.initial, NULL⟩ ∧
      (lean_glfwCreateWindow failingNative 800 600 "Test" State.initial).2.g_glfw_window_class =
        some (classPtr State.initial) ∧
      handleData (lean_glfwCreateWindow failingNative 800 600 "Test" State.initial).2
        (.ptr State.initial.heap.length) = some NULL) :=
  ⟨rfl, lean_glfwCreateWindow_wraps_null failingNative 800 600 "Test" State.initial rfl⟩

/-! ## ShouldClose on a fresh Handle -/

/-- C4: for every width, height and title, `lean_glfwCreateWindow` returns a Handle,
and `lean_glfwWindowShouldClose` on that Handle in the state just reached does not
take the fatal path: it returns a successful result holding the host boolean (boxed
0 or 1) that is true exactly when the native `glfwWindowShouldClose`, asked about the
pointer the Handle wraps, answered a non-zero `int`. -/
theorem shouldClose_after_createHandle (N : Native) (w h : Nat) (t : String) (s : State) :
    ∃ handle s1, lean_glfwCreateWindow N w h t s = (io_result.ok handle, s1) ∧
      lean_glfwWindowShouldClose N handle s1 =
        .ok (io_result.ok
              (hostBool (N.windowShouldClose s1.calls (nativeWindow N w h t s) != 0)),
             { s1 with calls := s1.calls ++ [.glfwWindowShouldClose (nativeWindow N w h t s)] }) := by
  refine ⟨.ptr s.heap.length, afterCreate N w h t s, lean_glfwCreateWindow_eq N w h t s, ?_⟩
  have hd : (afterCreate N w h t s).deref s.heap.length =
      some ⟨1, LeanExternal, classPtr s, nativeWindow N w h t s⟩ :=
    deref_append_length _ _ _ rfl
  exact lean_glfwWindowShouldClose_external N _ _ _ hd rfl

/-! ## Pointer identity -/

theorem join_getElem?_set {α : Type} (l : List (Option α)) (i a : Nat) (v : Option α) :
    ((l.set i v)[a]?).join = if i = a ∧ a < l.length then v else (l[a]?).join := by
  rw [List.getElem?_set]
  by_cases h : i = a
  · subst h
    by_cases h2 : i < l.length
    · simp [h2]
    · have h3 : l[i]? = none := List.getElem?_eq_none (by omega)
      simp [h2, h3]
  · simp [h]

theorem Wraps.of_heap_eq {a : Nat} {p : Ptr} {s s1 : State} (hw : Wraps a p s)
    (hh : s1.heap = s.heap) : Wraps a p s1 := by
  unfold Wraps State.deref at *
  rw [hh]
  exact hw

theorem Wraps.set_rc {a : Nat} {p : Ptr} {s : State} (hw : Wraps a p s) (b r : Nat)
    (obj : lean_object) (hb : s.deref b = some obj) :
    Wraps a p { s with heap := s.heap.set b (some { obj with m_rc := r }) } := by
  obtain ⟨hlt, hobj⟩ := hw
  refine ⟨by simpa using hlt, ?_⟩
  intro o ho
  simp only [State.deref, join_getElem?_set] at ho
  split at ho
  · rename_i hba
    obtain ⟨rfl, _⟩ := hba
    have := hobj obj hb
    cases ho
    exact this
  · exact hobj o ho

theorem Wraps.set_none {a : Nat} {p : Ptr} {s : State} (hw : Wraps a p s) (b : Nat) :
    Wraps a p { s with heap := s.heap.set b none } := by
  obtain ⟨hlt, hobj⟩ := hw
  refine ⟨by simpa using hlt, ?_⟩
  intro o ho
  simp only [State.deref, join_getElem?_set] at ho
  split at ho
  · cases ho
  · exact hobj o ho

theorem Wraps.append {a : Nat} {p : Ptr} {s s1 : State} (hw : Wraps a p s)
    (cell : Option lean_object) (hh : s1.heap = s.heap ++ [cell]) : Wraps a p s1 := by
  obtain ⟨hlt, hobj⟩ := hw
  refine ⟨by rw [hh]; simp; omega, ?_⟩
  intro o ho
  apply hobj o
  simpa [State.deref, hh, List.getElem?_append_left hlt] using ho

theorem lean_inc_wraps {a : Nat} {p : Ptr} {s s1 : State} (o : ObjRef) (hw : Wraps a p s)
    (h : lean_inc o s = .ok s1) : Wraps a p s1 := by
  cases o with
  | scalar n => simp [lean_inc] at h; subst h; exact hw
  | ptr b =>
    cases hb : s.deref b with
    | none => simp [lean_inc, hb] at h
    | some obj =>
      simp only [lean_inc, hb] at h
      split at h
      · cases h; exact hw.set_rc b _ obj hb
      · cases h; exact hw

theorem lean_del_core_wraps {a : Nat} {p : Ptr} {s s1 : State} (b : Nat) (obj : lean_object)
    (hw : Wraps a p s) (h : lean_del_core b obj s = .ok s1) : Wraps a p s1 := by
  unfold lean_del_core at h
  split at h
  · split at h
    · cases h
    · rename_i cls _
      cases h
      have hw1 : Wraps a p (call_finalize cls.m_finalize obj.m_data s) := by
        apply hw.of_heap_eq
        cases cls.m_finalize <;> rfl
      exact hw1.set_none b
  · cases h; exact hw.set_none b

theorem lean_dec_wraps {a : Nat} {p : Ptr} {s s1 : State} (o : ObjRef) (hw : Wraps a p s)
    (h : lean_dec o s = .ok s1) : Wraps a p s1 := by
  cases o with
  | scalar n => simp [lean_dec] at h; subst h; exact hw
  | ptr b =>
    cases hb : s.deref b with
    | none => simp [lean_dec, hb] at h
    | some obj =>
      simp only [lean_dec, hb] at h
      split at h
      · cases h; exact hw.set_rc b _ obj hb
      · split at h
        · exact lean_del_core_wraps b obj hw h
        · cases h; exact hw

theorem lean_glfwWindowShouldClose_heap {N : Native} {winp : ObjRef} {s s1 : State}
    {r : io_result} (h : lean_glfwWindowShouldClose N winp s = .ok (r, s1)) :
    s1.heap = s.heap ∧ s1.g_ext_classes = s.g_ext_classes ∧
      s1.g_glfw_window_class = s.g_glfw_window_class := by
  unfold lean_glfwWindowShouldClose at h
  split at h
  · cases h
  · cases h
  · split at h
    · cases h
    · simp only [glfwWindowShouldClose] at h
      cases h
      exact ⟨rfl, rfl, rfl⟩

theorem step_wraps {N : Native} {a : Nat} {p : Ptr} {s s1 : State} (op : Op)
    (hw : Wraps a p s) (h : step N op s = .ok s1) : Wraps a p s1 := by
  cases op with
  | Initialize => cases h; exact hw.of_heap_eq rfl
  | Terminate => cases h; exact hw.of_heap_eq rfl
  | PollEvents => cases h; exact hw.of_heap_eq rfl
  | CreateHandle w ht t =>
    simp only [step, lean_glfwCreateWindow_eq] at h
    cases h
    exact hw.append _ rfl
  | ShouldClose winp =>
    simp only [step] at h
    split at h
    · rename_i r s2 hs
      cases h
      exact hw.of_heap_eq (lean_glfwWindowShouldClose_heap hs).1
    · cases h
  | inc o => exact lean_inc_wraps o hw h
  | dec o => exact lean_dec_wraps o hw h

theorem run_wraps {N : Native} {a : Nat} {p : Ptr} (ops : List Op) :
    ∀ {s s1 : State}, Wraps a p s → run N ops s = .ok s1 → Wraps a p s1 := by
  induction ops with
  | nil => intro s s1 hw h; cases h; exact hw
  | cons op ops ih =>
    intro s s1 hw h
    simp only [run] at h
    split at h
    · rename_i s2 hs
      exact ih (step_wraps op hw hs) h
    · cases h

/-- C3: the Handle that `lean_glfwCreateWindow` returns wraps exactly the pointer `p`
answered by the native `glfwCreateWindow`; and after any further operations `ops`
that run to completion (among them any number of `ShouldClose` on the same Handle),
a `ShouldClose` on the Handle, while the Handle is still live, hands exactly `p` to
the native `glfwWindowShouldClose` and returns a boolean. -/
theorem handle_pointer_identity (N : Native) (w h : Nat) (t : String) (s : State)
    (ops : List Op) (s2 : State)
    (hrun : run N ops (lean_glfwCreateWindow N w h t s).2 = .ok s2)
    (hlive : (s2.deref s.heap.length).isSome) :
    (lean_glfwCreateWindow N w h t s).1 = io_result.ok (.ptr s.heap.length) ∧
    handleData (lean_glfwCreateWindow N w h t s).2 (.ptr s.heap.length) =
      some (nativeWindow N w h t s) ∧
    lean_glfwWindowShouldClose N (.ptr s.heap.length) s2 =
      .ok (io_result.ok
            (hostBool (N.windowShouldClose s2.calls (nativeWindow N w h t s) != 0)),
           { s2 with calls := s2.calls ++ [.glfwWindowShouldClose (nativeWindow N w h t s)] }) := by
  rw [lean_glfwCreateWindow_eq] at hrun ⊢
  have hd : (afterCreate N w h t s).deref s.heap.length =
      some ⟨1, LeanExternal, classPtr s, nativeWindow N w h t s⟩ :=
    deref_append_length _ _ _ rfl
  have hw0 : Wraps s.heap.length (nativeWindow N w h t s) (afterCreate N w h t s) := by
    refine ⟨by simp [afterCreate], ?_⟩
    intro obj ho
    rw [hd] at ho
    cases ho
    exact ⟨rfl, rfl⟩
  refine ⟨rfl, ?_, ?_⟩
  · simp only [handleData, hd]
    simp [afterCreate]
  · obtain ⟨obj, ho⟩ := Option.isSome_iff_exists.mp hlive
    obtain ⟨htag, hdata⟩ := (run_wraps ops hw0 hrun).2 obj ho
    rw [lean_glfwWindowShouldClose_external N s2 _ obj ho htag, hdata]

/-- Witness for C3: two `ShouldClose` on the Handle, with a `PollEvents` between
them, then a third query in the state reached. -/
theorem handle_pointer_identity_witness :
    run mockNative sampleQueries
        (lean_glfwCreateWindow mockNative 800 600 "Test" State.initial).2 =
      .ok (runOr mockNative sampleQueries
        (lean_glfwCreateWindow mockNative 800 600 "Test" State.initial).2) ∧
    ((runOr mockNative sampleQueries
        (lean_glfwCreateWindow mockNative 800 600 "Test" State.initial).2).deref
          State.initial.heap.length).isSome = true ∧
    ((lean_glfwCreateWindow mockNative 800 600 "Test" State.initial).1 =
        io_result.ok (.ptr State.initial.heap.length) ∧
      handleData (lean_glfwCreateWindow mockNative 800 600 "Test" State.initial).2
          (.ptr State.initial.heap.length) =
        some (nativeWindow mockNative 800 600 "Test" State.initial) ∧
      lean_glfwWindowShouldClose mockNative (.ptr State.initial.heap.length)
          (runOr mockNative sampleQueries
            (lean_glfwCreateWindow mockNative 800 600 "Test" State.initial).2) =
        .ok (io_result.ok (hostBool false),
             { runOr mockNative sampleQueries
                 (lean_glfwCreateWindow mockNative 800 600 "Test" State.initial).2 with
               calls := [.glfwCreateWindow 800 600 "Test", .glfwWindowShouldClose 4096,
                 .glfwPollEvents, .glfwWindowShouldClose 4096, .glfwWindowShouldClose 4096] })) :=
  ⟨rfl, rfl,
   handle_pointer_identity mockNative 800 600 "Test" State.initial sampleQueries
     (runOr mockNative sampleQueries
       (lean_glfwCreateWindow mockNative 800 600 "Test" State.initial).2) rfl rfl⟩

/-! ## The class registry -/

theorem Registered.of_eq {L : List lean_external_class} {b : Bool} {s s1 : State}
    (hr : Registered L b s) (hc : s1.g_ext_classes = s.g_ext_classes)
    (hg : s1.g_glfw_window_class = s.g_glfw_window_class) : Registered L b s1 := by
  unfold Registered at *
  rw [hc, hg]
  exact hr

theorem lean_inc_registry {o : ObjRef} {s s1 : State} (h : lean_inc o s = .ok s1) :
    s1.g_ext_classes = s.g_ext_classes ∧ s1.g_glfw_window_class = s.g_glfw_window_class := by
  cases o with
  | scalar n => simp [lean_inc] at h; subst h; exact ⟨rfl, rfl⟩
  | ptr b =>
    cases hb : s.deref b with
    | none => simp [lean_inc, hb] at h
    | some obj =>
      simp only [lean_inc, hb] at h
      split at h <;> cases h <;> exact ⟨rfl, rfl⟩

theorem lean_del_core_registry {b : Nat} {obj : lean_object} {s s1 : State}
    (h : lean_del_core b obj s = .ok s1) :
    s1.g_ext_classes = s.g_ext_classes ∧ s1.g_glfw_window_class = s.g_glfw_window_class := by
  unfold lean_del_core at h
  split at h
  · split at h
    · cases h
    · rename_i cls _
      cases h
      cases cls.m_finalize <;> exact ⟨rfl, rfl⟩
  · cases h; exact ⟨rfl, rfl⟩

theorem lean_dec_registry {o : ObjRef} {s s1 : State} (h : lean_dec o s = .ok s1) :
    s1.g_ext_classes = s.g_ext_classes ∧ s1.g_glfw_window_class = s.g_glfw_window_class := by
  cases o with
  | scalar n => simp [lean_dec] at h; subst h; exact ⟨rfl, rfl⟩
  | ptr b =>
    cases hb : s.deref b with
    | none => simp [lean_dec, hb] at h
    | some obj =>
      simp only [lean_dec, hb] at h
      split at h
      · cases h; exact ⟨rfl, rfl⟩
      · split at h
        · exact lean_del_core_registry h
        · cases h; exact ⟨rfl, rfl⟩

theorem afterCreate_registered {L : List lean_external_class} {b : Bool} {s : State}
    (N : Native) (w h : Nat) (t : String) (hr : Registered L b s) :
    Registered L true (afterCreate N w h t s) ∧ classPtr s = L.length := by
  obtain ⟨hc, hg⟩ := hr
  cases b <;> simp [Registered, afterCreate, classPtr, hc, hg]

theorem step_registered {N : Native} {L : List lean_external_class} {b : Bool}
    {s s1 : State} (op : Op) (hr : Registered L b s) (h : step N op s = .ok s1) :
    Registered L (b || isCreate op) s1 := by
  cases op with
  | Initialize => cases h; simpa [isCreate] using hr.of_eq rfl rfl
  | Terminate => cases h; simpa [isCreate] using hr.of_eq rfl rfl
  | PollEvents => cases h; simpa [isCreate] using hr.of_eq rfl rfl
  | CreateHandle w ht t =>
    simp only [step, lean_glfwCreateWindow_eq] at h
    cases h
    simpa [isCreate] using (afterCreate_registered N w ht t hr).1
  | ShouldClose winp =>
    simp only [step] at h
    split at h
    · rename_i r s2 hs
      cases h
      have := lean_glfwWindowShouldClose_heap hs
      simpa [isCreate] using hr.of_eq this.2.1 this.2.2
    · cases h
  | inc o =>
    have := lean_inc_registry h
    simpa [isCreate] using hr.of_eq this.1 this.2
  | dec o =>
    have := lean_dec_registry h
    simpa [isCreate] using hr.of_eq this.1 this.2

theorem run_registered {N : Native} {L : List lean_external_class} (ops : List Op) :
    ∀ {b : Bool} {s s1 : State}, Registered L b s → run N ops s = .ok s1 →
      Registered L (b || ops.any isCreate) s1 := by
  induction ops with
  | nil => intro b s s1 hr h; cases h; simpa using hr
  | cons op ops ih =>
    intro b s s1 hr h
    simp only [run] at h
    split at h
    · rename_i s2 hs
      have := ih (step_registered op hr hs) h
      simpa [Bool.or_assoc] using this
    · cases h

theorem run_append {N : Native} (pre post : List Op) :
    ∀ {s s2 : State}, run N (pre ++ post) s = .ok s2 →
      ∃ s1, run N pre s = .ok s1 ∧ run N post s1 = .ok s2 := by
  induction pre with
  | nil => intro s s2 h; exact ⟨s, rfl, h⟩
  | cons op pre ih =>
    intro s s2 h
    simp only [List.cons_append, run] at h ⊢
    split at h
    · rename_i s3 hs
      simpa [hs] using ih h
    · cases h

/-- C9: take any sequence of operations that runs to completion from a state in
which the static is still `NULL`, and any `CreateHandle` in it (so the sequence has
at least one).  The registry of the host has gained exactly one class at the end,
and already right after that `CreateHandle`; the class is the pair
(`glfw_window_finalizer`, `noop_foreach`); nothing was registered by the operations
before the first `CreateHandle`; and the Handle this `CreateHandle` returns is a
fresh external object tagged with the pointer of that one class. -/
theorem external_class_registered_once (N : Native) (s0 : State) (pre post : List Op)
    (w h : Nat) (t : String) (sEnd : State)
    (hstatic : s0.g_glfw_window_class = none)
    (hrun : run N (pre ++ Op.CreateHandle w h t :: post) s0 = .ok sEnd) :
    sEnd.g_ext_classes = s0.g_ext_classes ++ [⟨.glfw_window_finalizer, .noop_foreach⟩] ∧
    sEnd.g_glfw_window_class = some s0.g_ext_classes.length ∧
    ∃ s1, run N pre s0 = .ok s1 ∧
      (pre.any isCreate = false → s1.g_ext_classes = s0.g_ext_classes) ∧
      (lean_glfwCreateWindow N w h t s1).1 = io_result.ok (.ptr s1.heap.length) ∧
      (lean_glfwCreateWindow N w h t s1).2.deref s1.heap.length =
        some ⟨1, LeanExternal, s0.g_ext_classes.length, nativeWindow N w h t s1⟩ ∧
      (lean_glfwCreateWindow N w h t s1).2.g_ext_classes =
        s0.g_ext_classes ++ [⟨.glfw_window_finalizer, .noop_foreach⟩] ∧
      (lean_glfwCreateWindow N w h t s1).2.g_glfw_window_class =
        some s0.g_ext_classes.length := by
  have h0 : Registered s0.g_ext_classes false s0 := by simp [Registered, hstatic]
  have hEnd := run_registered _ h0 hrun
  simp only [Registered, List.any_append, List.any_cons, isCreate, Bool.true_or, Bool.or_true,
    Bool.false_or, if_true] at hEnd
  obtain ⟨s1, hpre, _⟩ := run_append pre _ hrun
  have h1 := run_registered pre h0 hpre
  have hc := afterCreate_registered N w h t h1
  refine ⟨hEnd.1, hEnd.2, s1, hpre, ?_, ?_⟩
  · intro hno
    simpa [Registered, hno] using h1.1
  · rw [lean_glfwCreateWindow_eq]
    refine ⟨rfl, ?_, ?_, ?_⟩
    · rw [← hc.2]; exact deref_append_length _ _ _ rfl
    · simpa [Registered] using hc.1.1
    · simpa [Registered] using hc.1.2

/-- Witness for C9: a sequence with two `CreateHandle`, taken at the second one. -/
theorem external_class_registered_once_witness :
    State.initial.g_glfw_window_class = none ∧
    run mockNative (sampleBefore ++ Op.CreateHandle 640 480 "Second" :: sampleAfter)
        State.initial =
      .ok (runOr mockNative (sampleBefore ++ Op.CreateHandle 640 480 "Second" :: sampleAfter)
        State.initial) ∧
    ((runOr mockNative (sampleBefore ++ Op.CreateHandle 640 480 "Second" :: sampleAfter)
          State.initial).g_ext_classes =
        State.initial.g_ext_classes ++ [⟨.glfw_window_finalizer, .noop_foreach⟩] ∧
      (runOr mockNative (sampleBefore ++ Op.CreateHandle 640 480 "Second" :: sampleAfter)
          State.initial).g_glfw_window_class = some State.initial.g_ext_classes.length ∧
      ∃ s1, run mockNative sampleBefore State.initial = .ok s1 ∧
        (sampleBefore.any isCreate = false →
          s1.g_ext_classes = State.initial.g_ext_classes) ∧
        (lean_glfwCreateWindow mockNative 640 480 "Second" s1).1 =
          io_result.ok (.ptr s1.heap.length) ∧
        (lean_glfwCreateWindow mockNative 640 480 "Second" s1).2.deref s1.heap.length =
          some ⟨1, LeanExternal, State.initial.g_ext_classes.length,
            nativeWindow mockNative 640 480 "Second" s1⟩ ∧
        (lean_glfwCreateWindow mockNative 640 480 "Second" s1).2.g_ext_classes =
          State.initial.g_ext_classes ++ [⟨.glfw_window_finalizer, .noop_foreach⟩] ∧
        (lean_glfwCreateWindow mockNative 640 480 "Second" s1).2.g_glfw_window_class =
          some State.initial.g_ext_classes.length) :=
  ⟨rfl, rfl,
   external_class_registered_once mockNative State.initial sampleBefore sampleAfter
     640 480 "Second" _ rfl rfl⟩

/-! ## The finalizer -/

/-- C2 fails as stated: on the Handle created by `CreateHandle(800,600,"Test")`
against the mock, whose pointer is 4096, two runs of `glfw_window_finalizer` make
two native `glfwDestroyWindow(4096)` calls, not one. -/
theorem finalizer_twice_destroys_twice :
    handleData (lean_glfwCreateWindow mockNative 800 600 "Test" State.initial).2 (.ptr 0) =
      some 4096 ∧
    List.count (NativeCall.glfwDestroyWindow 4096)
      ((glfw_window_finalizer 4096)^[2]
        (lean_glfwCreateWindow mockNative 800 600 "Test" State.initial).2).calls = 2 ∧
    ¬ List.count (NativeCall.glfwDestroyWindow 4096)
      ((glfw_window_finalizer 4096)^[2]
        (lean_glfwCreateWindow mockNative 800 600 "Test" State.initial).2).calls = 1 := by
  refine ⟨rfl, ?_, ?_⟩ <;> decide

theorem glfw_window_finalizer_iterate (p : Ptr) (s : State) (n : Nat) :
    (glfw_window_finalizer p)^[n] s =
      { s with calls := s.calls ++ List.replicate n (.glfwDestroyWindow p) } := by
  induction n with
  | zero => simp
  | succ n ih =>
    rw [Function.iterate_succ_apply', ih]
    simp [glfw_window_finalizer, glfwDestroyWindow, List.replicate_succ']

/-- C2, amended: for every Handle produced by `lean_glfwCreateWindow`, with `p` its
pointer, `n` runs of `glfw_window_finalizer` on it add exactly `n` native
`glfwDestroyWindow(p)` calls (one per run, so exactly one when `n = 1`), and change
nothing else. -/
theorem finalizer_destroys_once_per_run (N : Native) (w h : Nat) (t : String) (s : State)
    (n : Nat) :
    handleData (lean_glfwCreateWindow N w h t s).2 (.ptr s.heap.length) =
      some (nativeWindow N w h t s) ∧
    List.count (NativeCall.glfwDestroyWindow (nativeWindow N w h t s))
        ((glfw_window_finalizer (nativeWindow N w h t s))^[n]
          (lean_glfwCreateWindow N w h t s).2).calls =
      List.count (NativeCall.glfwDestroyWindow (nativeWindow N w h t s))
        (lean_glfwCreateWindow N w h t s).2.calls + n ∧
    ((glfw_window_finalizer (nativeWindow N w h t s))^[n]
        (lean_glfwCreateWindow N w h t s).2).heap = (lean_glfwCreateWindow N w h t s).2.heap := by
  have hd : (afterCreate N w h t s).deref s.heap.length =
      some ⟨1, LeanExternal, classPtr s, nativeWindow N w h t s⟩ :=
    deref_append_length _ _ _ rfl
  rw [glfw_window_finalizer_iterate, lean_glfwCreateWindow_eq]
  refine ⟨?_, ?_, rfl⟩
  · simp only [handleData, hd]
    simp [afterCreate]
  · simp [List.count_append, List.count_replicate]

/-! ## ShouldClose on a value of the wrong kind -/

/-- C1 fails as stated: the external object at address 0 of `foreignState` belongs
to another class, so it is not a Handle of the GLFW-window class, yet
`lean_glfwWindowShouldClose` passes the assertion, hands the foreign pointer 7 to the
native `glfwWindowShouldClose` and returns a boolean. -/
theorem shouldClose_accepts_foreign_class :
    foreignState.g_glfw_window_class = some 1 ∧
    foreignState.deref 0 = some ⟨1, LeanExternal, 0, 7⟩ ∧
    handleData foreignState (.ptr 0) = none ∧
    handleData foreignState (.ptr 2) = some 4096 ∧
    lean_glfwWindowShouldClose mockNative (.ptr 0) foreignState =
      .ok (io_result.ok (hostBool false),
           { foreignState with
             calls := [.glfwCreateWindow 800 600 "Test", .glfwWindowShouldClose 7] }) := by
  exact ⟨rfl, rfl, rfl, rfl, rfl⟩

/-- C1, amended: for every live host object that is not an external object,
`lean_glfwWindowShouldClose` takes the assertion path and returns nothing; every
live external object, of whatever class, passes the assertion, and the call returns
the boolean answered by the native layer for its data pointer. -/
theorem shouldClose_asserts_external (N : Native) (s : State) (a : Nat) (obj : lean_object)
    (hobj : s.deref a = some obj) :
    (obj.m_tag ≠ LeanExternal →
      lean_glfwWindowShouldClose N (.ptr a) s = .error .assertion) ∧
    (obj.m_tag = LeanExternal →
      lean_glfwWindowShouldClose N (.ptr a) s =
        .ok (io_result.ok (hostBool (N.windowShouldClose s.calls obj.m_data != 0)),
             { s with calls := s.calls ++ [.glfwWindowShouldClose obj.m_data] })) := by
  refine ⟨?_, lean_glfwWindowShouldClose_external N s a obj hobj⟩
  intro hne
  have hb : (obj.m_tag == LeanExternal) = false := by simpa using hne
  simp [lean_glfwWindowShouldClose, lean_is_external, hobj, hb]

/-- Witness for C1, amended: the object at address 1 of `foreignState` has the tag
of a string (249), and `ShouldClose` on it takes the assertion path. -/
theorem shouldClose_asserts_external_witness :
    foreignState.deref 1 = some ⟨1, 249, 0, 0⟩ ∧
    (249 : Nat) ≠ LeanExternal ∧
    lean_glfwWindowShouldClose mockNative (.ptr 1) foreignState = .error .assertion :=
  ⟨rfl, by decide,
   (shouldClose_asserts_external mockNative foreignState 1 ⟨1, 249, 0, 0⟩ rfl).1 (by decide)⟩

/-! ## The sequence test -/

theorem printf_d_below (x : Nat) (h : x < 2147483648) : printf_d x = toString x := by
  have hm : x % 4294967296 = x := Nat.mod_eq_of_lt (by omega)
  simp only [printf_d, int_of_uint32, hm, h, if_true]
  rfl

theorem printf_d_above (x : Nat) (h1 : 2147483648 ≤ x) (h2 : x < 4294967296) :
    printf_d x = "-" ++ toString (4294967296 - x) := by
  have hm : x % 4294967296 = x := Nat.mod_eq_of_lt h2
  have hn : ¬ x < 2147483648 := by omega
  simp only [printf_d, int_of_uint32, hm, hn, if_false]
  obtain ⟨k, hk⟩ : ∃ k, 4294967296 - x = k + 1 := ⟨4294967296 - x - 1, by omega⟩
  have hneg : ((x : Nat) : Int) - 4294967296 = Int.negSucc k := by
    rw [Int.negSucc_eq]; omega
  rw [hneg, hk]
  rfl

/-- C10, evaluated: for the requested width 2147483648 (2^31) and height 600,
`lean_glfwCreateWindow` writes the line `lean_glfwCreateWindow -2147483648x600`: the
width is rendered by `%d` as a negative number. -/
theorem diagnostic_line_negative_width :
    createWindowLine 2147483648 600 = "lean_glfwCreateWindow -2147483648x600\n" ∧
    (lean_glfwCreateWindow mockNative 2147483648 600 "Test" State.initial).2.stdout =
      "lean_glfwCreateWindow -2147483648x600\n" := by
  constructor <;> decide

end GLFW
